import Mathlib

/-
Shallow embedding of the Pomodoro timer state machine
(`src/pomodoro_timer.py`, class `PomodoroTimer`) together with the
session-recorder collaborator it calls into (`src/statistics_db.py`,
wired in `src/menu_bar_app.py`):
  on_session_start  ↦ StatisticsDB.start_session
  on_session_end    ↦ StatisticsDB.end_session (on the recorder's current id)
  on_extend         ↦ StatisticsDB.add_extend  (on the recorder's current id)
Callbacks are modelled as always attached (as the application wires them),
and every callback invocation is logged as an `Event`.  Wall-clock reads
(`time.time()`) are passed in explicitly as a rational `now` argument.
Python `int(...)` truncation is `pyInt`; Python truthiness of an optional
integer (`if self.current_session_id:`) is `truthyId`; truthiness of an
optional float (`if self.pause_start_time:`) is modelled by the `t ≠ 0`
test in the corresponding branch.
-/

namespace Pomodoro

inductive TimerState where
  | IDLE
  | WORKING
  | SHORT_BREAK
  | LONG_BREAK
  | PAUSED
deriving DecidableEq

inductive SessionType where
  | work
  | short_break
  | long_break
deriving DecidableEq

/-- Python `int(q)` applied to a rational: truncation toward zero. -/
def pyInt (q : ℚ) : ℤ := Int.tdiv q.num q.den

/-- The mutable fields of `PomodoroTimer` (constructor arguments included,
they are never mutated by the modelled operations). -/
structure Timer where
  work_minutes : ℚ
  short_break_minutes : ℚ
  long_break_minutes : ℚ
  pomodoros_until_long_break : ℕ
  state : TimerState
  previous_state : Option TimerState
  completed_pomodoros : ℕ
  remaining_seconds : ℤ
  total_seconds : ℤ
  current_session_id : Option ℕ
  last_session_id : Option ℕ
  extend_count : ℕ
  last_completed_session : Option TimerState
  pause_start_time : Option ℚ
  total_pause_seconds : ℤ
  pause_count : ℕ
  session_start_seconds : ℤ
deriving DecidableEq

/-- `PomodoroTimer.__init__` field initialisation (the positivity
validation precedes these assignments and raises without constructing). -/
def Timer.init (w sb lb : ℚ) (p : ℕ) : Timer :=
  { work_minutes := w
    short_break_minutes := sb
    long_break_minutes := lb
    pomodoros_until_long_break := p
    state := TimerState.IDLE
    previous_state := none
    completed_pomodoros := 0
    remaining_seconds := 0
    total_seconds := 0
    current_session_id := none
    last_session_id := none
    extend_count := 0
    last_completed_session := none
    pause_start_time := none
    total_pause_seconds := 0
    pause_count := 0
    session_start_seconds := 0 }

/-- The session recorder (`StatisticsDB`): sqlite row ids start at 1,
`open_sessions` are the rows with `end_time IS NULL`, `current_session_id`
is the recorder's own notion of the session in progress, and
`extend_events` logs which session id each `add_extend` hit. -/
structure Db where
  next_id : ℕ
  open_sessions : List ℕ
  current_session_id : Option ℕ
  extend_events : List ℕ
deriving DecidableEq

def Db.init : Db :=
  { next_id := 1, open_sessions := [], current_session_id := none, extend_events := [] }

/-- `StatisticsDB.start_session`: inserts an open row and returns its id. -/
def Db.start_session (db : Db) : Db × ℕ :=
  ({ db with
      next_id := db.next_id + 1
      open_sessions := db.next_id :: db.open_sessions
      current_session_id := some db.next_id }, db.next_id)

/-- `StatisticsDB.end_session` as invoked by the timer's `on_session_end`
wiring (no explicit id): closes the recorder's current session, if any. -/
def Db.end_session (db : Db) : Db :=
  match db.current_session_id with
  | none => db
  | some i =>
    { db with open_sessions := db.open_sessions.erase i, current_session_id := none }

/-- `StatisticsDB.add_extend` as invoked by `on_extend` (no explicit id):
bumps the extend counter of the recorder's current session, if any. -/
def Db.add_extend (db : Db) : Db :=
  match db.current_session_id with
  | none => db
  | some i => { db with extend_events := i :: db.extend_events }

/-- One callback invocation made by the state machine. -/
inductive Event where
  | tick (remaining : ℤ)
  | state_change (old_state new_state : TimerState)
  | complete
  | session_start (ty : SessionType) (planned : ℚ) (id : ℕ)
  | session_end (completed : Bool)
  | extend_recorded
deriving DecidableEq

/-- Timer plus its recorder collaborator. -/
structure Sys where
  tm : Timer
  db : Db
deriving DecidableEq

def Sys.init (w sb lb : ℚ) (p : ℕ) : Sys :=
  { tm := Timer.init w sb lb p, db := Db.init }

/-- Python truthiness of `self.current_session_id` (`None` and `0` are falsy). -/
def truthyId : Option ℕ → Bool
  | none => false
  | some i => i != 0

/-- `PomodoroTimer._change_state`: sets the state and fires `on_state_change`. -/
def change_state (s : Sys) (new_state : TimerState) : Sys × List Event :=
  ({ s with tm := { s.tm with state := new_state } },
   [Event.state_change s.tm.state new_state])

/-- `PomodoroTimer.is_break_time`. -/
def is_break_time (tm : Timer) : Prop :=
  0 < tm.completed_pomodoros

/-- `PomodoroTimer.is_long_break_time`. -/
def is_long_break_time (tm : Timer) : Prop :=
  tm.pomodoros_until_long_break ≤ tm.completed_pomodoros ∧ 0 < tm.completed_pomodoros

instance (tm : Timer) : Decidable (is_long_break_time tm) := by
  unfold is_long_break_time; infer_instance

/-- `PomodoroTimer.start_work`; raising `TimerStateError` is the `error`
branch, in which no field has yet been mutated. -/
def start_work (s : Sys) : Except String (Sys × List Event) :=
  if s.tm.state ≠ TimerState.IDLE then
    Except.error "TimerStateError: cannot start work from a non-idle state"
  else
    let total := pyInt (s.tm.work_minutes * 60)
    let tm1 : Timer :=
      { s.tm with
          total_seconds := total
          remaining_seconds := total
          extend_count := 0
          pause_start_time := none
          total_pause_seconds := 0
          pause_count := 0
          session_start_seconds := total }
    let r := s.db.start_session
    let tm2 : Timer := { tm1 with current_session_id := some r.2 }
    let c := change_state { tm := tm2, db := r.1 } TimerState.WORKING
    Except.ok (c.1, Event.session_start SessionType.work s.tm.work_minutes r.2 :: c.2)

/-- `PomodoroTimer.start_break` (no precondition in the source). -/
def start_break (s : Sys) : Sys × List Event :=
  let tm0 : Timer :=
    { s.tm with pause_start_time := none, total_pause_seconds := 0, pause_count := 0 }
  let long := is_long_break_time tm0
  let dur : ℚ := if long then tm0.long_break_minutes else tm0.short_break_minutes
  let ty : SessionType := if long then SessionType.long_break else SessionType.short_break
  let st : TimerState := if long then TimerState.LONG_BREAK else TimerState.SHORT_BREAK
  let total := pyInt (dur * 60)
  let c := change_state { tm := { tm0 with total_seconds := total }, db := s.db } st
  let tm2 : Timer :=
    { c.1.tm with
        remaining_seconds := total
        extend_count := 0
        session_start_seconds := total }
  let r := c.1.db.start_session
  let tm3 : Timer := { tm2 with current_session_id := some r.2 }
  ({ tm := tm3, db := r.1 }, c.2 ++ [Event.session_start ty dur r.2])

/-- `PomodoroTimer._handle_timer_complete`. -/
def handle_timer_complete (s : Sys) : Sys × List Event :=
  let tm1 : Timer :=
    { s.tm with
        last_completed_session := some s.tm.state
        last_session_id := s.tm.current_session_id }
  let db1 := s.db.end_session
  let tm2 : Timer :=
    if s.tm.state = TimerState.WORKING then
      { tm1 with completed_pomodoros := tm1.completed_pomodoros + 1 }
    else if s.tm.state = TimerState.LONG_BREAK then
      { tm1 with completed_pomodoros := 0 }
    else tm1
  let c := change_state { tm := tm2, db := db1 } TimerState.IDLE
  ({ c.1 with tm := { c.1.tm with remaining_seconds := 0 } },
   Event.session_end true :: c.2 ++ [Event.complete])

/-- `PomodoroTimer.tick`. -/
def tick (s : Sys) : Sys × List Event :=
  if s.tm.state = TimerState.WORKING ∨ s.tm.state = TimerState.SHORT_BREAK ∨
      s.tm.state = TimerState.LONG_BREAK then
    let r := s.tm.remaining_seconds - 1
    let s1 : Sys := { s with tm := { s.tm with remaining_seconds := r } }
    if r ≤ 0 then
      let c := handle_timer_complete s1
      (c.1, Event.tick r :: c.2)
    else
      (s1, [Event.tick r])
  else
    (s, [])

/-- `PomodoroTimer.pause`; `now` is the `time.time()` read. -/
def pause (s : Sys) (now : ℚ) : Sys × List Event :=
  if s.tm.state = TimerState.WORKING ∨ s.tm.state = TimerState.SHORT_BREAK ∨
      s.tm.state = TimerState.LONG_BREAK then
    let tm1 : Timer := { s.tm with previous_state := some s.tm.state }
    let c := change_state { s with tm := tm1 } TimerState.PAUSED
    ({ c.1 with tm := { c.1.tm with pause_start_time := some now,
                                    pause_count := c.1.tm.pause_count + 1 } }, c.2)
  else
    (s, [])

/-- Fold an in-flight pause into `total_pause_seconds`
(the `if self.pause_start_time:` body shared by resume/stop/reset);
`some 0` is falsy in Python, hence the `t ≠ 0` test. -/
def fold_pause (tm : Timer) (now : ℚ) : Timer :=
  match tm.pause_start_time with
  | none => tm
  | some t =>
    if t ≠ 0 then
      { tm with
          total_pause_seconds := tm.total_pause_seconds + pyInt (now - t)
          pause_start_time := none }
    else tm

/-- `PomodoroTimer.resume`. -/
def resume (s : Sys) (now : ℚ) : Sys × List Event :=
  match s.tm.previous_state with
  | none => (s, [])
  | some p =>
    if s.tm.state = TimerState.PAUSED then
      let c := change_state { s with tm := fold_pause s.tm now } p
      ({ c.1 with tm := { c.1.tm with previous_state := none } }, c.2)
    else
      (s, [])

/-- `PomodoroTimer.stop`. -/
def stop (s : Sys) (now : ℚ) : Sys × List Event :=
  let tm1 : Timer :=
    if s.tm.state = TimerState.PAUSED then fold_pause s.tm now else s.tm
  let ended := truthyId tm1.current_session_id
  let db1 := if ended then s.db.end_session else s.db
  let ev1 : List Event := if ended then [Event.session_end false] else []
  let c := change_state { tm := tm1, db := db1 } TimerState.IDLE
  ({ c.1 with tm := { c.1.tm with remaining_seconds := 0, current_session_id := none } },
   ev1 ++ c.2)

/-- `PomodoroTimer.reset`. -/
def reset (s : Sys) (now : ℚ) : Sys × List Event :=
  let tm1 : Timer :=
    if s.tm.state = TimerState.PAUSED then fold_pause s.tm now else s.tm
  let ended := truthyId tm1.current_session_id
  let db1 := if ended then s.db.end_session else s.db
  let ev1 : List Event := if ended then [Event.session_end false] else []
  let c := change_state { tm := tm1, db := db1 } TimerState.IDLE
  ({ c.1 with tm :=
      { c.1.tm with
          remaining_seconds := 0
          total_seconds := 0
          completed_pomodoros := 0
          previous_state := none
          current_session_id := none
          extend_count := 0
          total_pause_seconds := 0
          pause_count := 0
          session_start_seconds := 0 } },
   ev1 ++ c.2)

/-- `PomodoroTimer.extend`. -/
def extend (s : Sys) (minutes : ℚ) : Sys × List Event :=
  if s.tm.state = TimerState.WORKING ∨ s.tm.state = TimerState.SHORT_BREAK ∨
      s.tm.state = TimerState.LONG_BREAK then
    ({ tm := { s.tm with
                 remaining_seconds := s.tm.remaining_seconds + pyInt (minutes * 60)
                 extend_count := s.tm.extend_count + 1 }
       db := s.db.add_extend },
     [Event.extend_recorded])
  else
    (s, [])

/-- `PomodoroTimer.extend_completed_session`. -/
def extend_completed_session (s : Sys) (minutes : ℚ) (session_id : ℕ) :
    Sys × List Event :=
  if s.tm.state ≠ TimerState.IDLE then
    (s, [])
  else
    match s.tm.last_completed_session with
    | some TimerState.WORKING =>
      let c := change_state s TimerState.WORKING
      ({ c.1 with tm := { c.1.tm with
          remaining_seconds := pyInt (minutes * 60)
          total_seconds := pyInt (minutes * 60)
          current_session_id := some session_id
          extend_count := c.1.tm.extend_count + 1 } }, c.2)
    | some TimerState.SHORT_BREAK =>
      let c := change_state s TimerState.SHORT_BREAK
      ({ c.1 with tm := { c.1.tm with
          remaining_seconds := pyInt (minutes * 60)
          total_seconds := pyInt (minutes * 60)
          current_session_id := some session_id
          extend_count := c.1.tm.extend_count + 1 } }, c.2)
    | some TimerState.LONG_BREAK =>
      let c := change_state s TimerState.LONG_BREAK
      ({ c.1 with tm := { c.1.tm with
          remaining_seconds := pyInt (minutes * 60)
          total_seconds := pyInt (minutes * 60)
          current_session_id := some session_id
          extend_count := c.1.tm.extend_count + 1 } }, c.2)
    | _ => (s, [])

/-- `PomodoroTimer.skip_break`. -/
def skip_break (s : Sys) : Sys × List Event :=
  if s.tm.state = TimerState.SHORT_BREAK ∨ s.tm.state = TimerState.LONG_BREAK then
    let tm1 : Timer :=
      if s.tm.state = TimerState.LONG_BREAK then
        { s.tm with completed_pomodoros := 0 }
      else s.tm
    let ended := truthyId tm1.current_session_id
    let db1 := if ended then s.db.end_session else s.db
    let ev1 : List Event := if ended then [Event.session_end false] else []
    let c := change_state { tm := tm1, db := db1 } TimerState.IDLE
    ({ c.1 with tm := { c.1.tm with remaining_seconds := 0, current_session_id := none } },
     ev1 ++ c.2)
  else
    (s, [])

/-- One driver-level operation on the state machine; clock reads and
call arguments are carried as parameters. -/
inductive Op where
  | start_work
  | start_break
  | tick
  | pause (now : ℚ)
  | resume (now : ℚ)
  | stop (now : ℚ)
  | reset (now : ℚ)
  | extend (minutes : ℚ)
  | extend_completed (minutes : ℚ) (session_id : ℕ)
  | skip_break
deriving DecidableEq

/-- Apply one operation; a raised `TimerStateError` propagates to the
driver before any mutation, so the state is unchanged in that case. -/
def step (s : Sys) : Op → Sys × List Event
  | Op.start_work =>
    match start_work s with
    | Except.ok r => r
    | Except.error _ => (s, [])
  | Op.start_break => start_break s
  | Op.tick => tick s
  | Op.pause now => pause s now
  | Op.resume now => resume s now
  | Op.stop now => stop s now
  | Op.reset now => reset s now
  | Op.extend m => extend s m
  | Op.extend_completed m sid => extend_completed_session s m sid
  | Op.skip_break => skip_break s

/-- Run a sequence of operations (states only). -/
def run (s : Sys) : List Op → Sys
  | [] => s
  | op :: ops => run (step s op).1 ops

/-- C2: `start_work` from a non-`Idle` phase fails with `TimerStateError`
(surfaced to the caller as the `error` branch) leaving the state unchanged;
from `Idle` it sets `remaining = total = session_start = work_minutes * 60`
seconds (truncated), resets `extend_count` and all pause accounting, opens
a `work` session capturing the returned id, and transitions to `Working`. -/
theorem start_work_spec (s : Sys) :
    start_work s =
      (if s.tm.state = TimerState.IDLE then
        Except.ok
          ({ tm :=
              { s.tm with
                  total_seconds := pyInt (s.tm.work_minutes * 60)
                  remaining_seconds := pyInt (s.tm.work_minutes * 60)
                  extend_count := 0
                  pause_start_time := none
                  total_pause_seconds := 0
                  pause_count := 0
                  session_start_seconds := pyInt (s.tm.work_minutes * 60)
                  current_session_id := some s.db.next_id
                  state := TimerState.WORKING }
             db :=
              { next_id := s.db.next_id + 1
                open_sessions := s.db.next_id :: s.db.open_sessions
                current_session_id := some s.db.next_id
                extend_events := s.db.extend_events } },
           [Event.session_start SessionType.work s.tm.work_minutes s.db.next_id,
            Event.state_change s.tm.state TimerState.WORKING])
      else
        Except.error "TimerStateError: cannot start work from a non-idle state")
    ∧ step s Op.start_work =
      (if s.tm.state = TimerState.IDLE then
        ((start_work s).toOption.getD (s, [])) else (s, [])) := by
  by_cases h : s.tm.state = TimerState.IDLE <;>
    simp [start_work, step, change_state, Db.start_session, h, Except.toOption]

/-- C3: `start_break` enters `LongBreak` exactly when
`pomodoros_until_long_break ≤ completed_pomodoros` and
`0 < completed_pomodoros`, and `ShortBreak` otherwise; either way it sets
`remaining = total = session_start` to the chosen duration in (truncated)
seconds, resets `extend_count` and pause accounting, and opens a session
record of the matching type. -/
theorem start_break_spec (s : Sys) :
    (is_long_break_time s.tm ↔
      s.tm.pomodoros_until_long_break ≤ s.tm.completed_pomodoros ∧
        0 < s.tm.completed_pomodoros)
    ∧ start_break s =
      (if is_long_break_time s.tm then
        ({ tm :=
            { s.tm with
                pause_start_time := none
                total_pause_seconds := 0
                pause_count := 0
                total_seconds := pyInt (s.tm.long_break_minutes * 60)
                state := TimerState.LONG_BREAK
                remaining_seconds := pyInt (s.tm.long_break_minutes * 60)
                extend_count := 0
                session_start_seconds := pyInt (s.tm.long_break_minutes * 60)
                current_session_id := some s.db.next_id }
           db :=
            { next_id := s.db.next_id + 1
              open_sessions := s.db.next_id :: s.db.open_sessions
              current_session_id := some s.db.next_id
              extend_events := s.db.extend_events } },
         [Event.state_change s.tm.state TimerState.LONG_BREAK,
          Event.session_start SessionType.long_break s.tm.long_break_minutes s.db.next_id])
      else
        ({ tm :=
            { s.tm with
                pause_start_time := none
                total_pause_seconds := 0
                pause_count := 0
                total_seconds := pyInt (s.tm.short_break_minutes * 60)
                state := TimerState.SHORT_BREAK
                remaining_seconds := pyInt (s.tm.short_break_minutes * 60)
                extend_count := 0
                session_start_seconds := pyInt (s.tm.short_break_minutes * 60)
                current_session_id := some s.db.next_id }
           db :=
            { next_id := s.db.next_id + 1
              open_sessions := s.db.next_id :: s.db.open_sessions
              current_session_id := some s.db.next_id
              extend_events := s.db.extend_events } },
         [Event.state_change s.tm.state TimerState.SHORT_BREAK,
          Event.session_start SessionType.short_break s.tm.short_break_minutes
            s.db.next_id])) := by
  constructor
  · exact Iff.rfl
  · by_cases h : s.tm.pomodoros_until_long_break ≤ s.tm.completed_pomodoros ∧
        0 < s.tm.completed_pomodoros <;>
      simp [start_break, is_long_break_time, change_state, Db.start_session, h]

/-- C6: `extend_completed_session(amount, session_id)` from `Idle` with a
known last completed phase re-enters exactly that phase with
`remaining = total = amount * 60` seconds (truncated, so 5 minutes gives
300), re-attaches `session_id` as the open session id and increments
`extend_count` by one; from any other phase, or with an unknown
`last_completed_session`, it changes nothing and fires nothing. -/
theorem extend_completed_session_spec (s : Sys) (m : ℚ) (sid : ℕ) :
    extend_completed_session s m sid =
      (if s.tm.state = TimerState.IDLE ∧
          (s.tm.last_completed_session = some TimerState.WORKING ∨
           s.tm.last_completed_session = some TimerState.SHORT_BREAK ∨
           s.tm.last_completed_session = some TimerState.LONG_BREAK) then
        ({ s with tm :=
            { s.tm with
                state := s.tm.last_completed_session.getD TimerState.IDLE
                remaining_seconds := pyInt (m * 60)
                total_seconds := pyInt (m * 60)
                current_session_id := some sid
                extend_count := s.tm.extend_count + 1 } },
         [Event.state_change s.tm.state
            (s.tm.last_completed_session.getD TimerState.IDLE)])
      else (s, [])) := by
  by_cases h : s.tm.state = TimerState.IDLE
  · rcases hl : s.tm.last_completed_session with _ | p
    · simp [extend_completed_session, h, hl, change_state]
    · cases p <;> simp [extend_completed_session, h, hl, change_state]
  · simp [extend_completed_session, h]

/-- Concrete state for the C7 scenario: `Working` with `remaining_time`
120 seconds, `extend_count` 0, and session 1 open at the recorder. -/
def extend_demo : Sys :=
  { tm :=
      { Timer.init 25 5 15 4 with
          state := TimerState.WORKING
          remaining_seconds := 120
          total_seconds := 1500
          session_start_seconds := 1500
          current_session_id := some 1 }
    db := { next_id := 2, open_sessions := [1], current_session_id := some 1,
            extend_events := [] } }

/-- C7: `extend(amount)` from an active phase adds `amount * 60` seconds
(truncated) to `remaining_time`, increments `extend_count` by one and makes
exactly one extend notification, which the recorder applies to its open
session; from any other phase it is a no-op.  In particular `extend 5` on
the scenario state (`Working`, remaining 120) yields remaining 420,
`extend_count` 1 and one recorded extend against session 1. -/
theorem extend_spec (s : Sys) (m : ℚ) :
    (extend s m =
      (if s.tm.state = TimerState.WORKING ∨ s.tm.state = TimerState.SHORT_BREAK ∨
          s.tm.state = TimerState.LONG_BREAK then
        ({ tm :=
            { s.tm with
                remaining_seconds := s.tm.remaining_seconds + pyInt (m * 60)
                extend_count := s.tm.extend_count + 1 }
           db := s.db.add_extend },
         [Event.extend_recorded])
      else (s, [])))
    ∧ (extend extend_demo 5).1.tm.remaining_seconds = 420
    ∧ (extend extend_demo 5).1.tm.extend_count = 1
    ∧ (extend extend_demo 5).1.db.extend_events = [1]
    ∧ (extend extend_demo 5).2 = [Event.extend_recorded] := by
  refine ⟨?_, ?_, ?_, ?_, ?_⟩
  · by_cases h : s.tm.state = TimerState.WORKING ∨ s.tm.state = TimerState.SHORT_BREAK ∨
        s.tm.state = TimerState.LONG_BREAK <;> simp [extend, h]
  all_goals
    norm_num [extend, extend_demo, Timer.init, Db.add_extend, pyInt]

@[simp] lemma fold_pause_state (tm : Timer) (now : ℚ) :
    (fold_pause tm now).state = tm.state := by
  unfold fold_pause
  split
  · rfl
  · split <;> rfl

@[simp] lemma fold_pause_previous_state (tm : Timer) (now : ℚ) :
    (fold_pause tm now).previous_state = tm.previous_state := by
  unfold fold_pause
  split
  · rfl
  · split <;> rfl

@[simp] lemma fold_pause_completed_pomodoros (tm : Timer) (now : ℚ) :
    (fold_pause tm now).completed_pomodoros = tm.completed_pomodoros := by
  unfold fold_pause
  split
  · rfl
  · split <;> rfl

@[simp] lemma fold_pause_current_session_id (tm : Timer) (now : ℚ) :
    (fold_pause tm now).current_session_id = tm.current_session_id := by
  unfold fold_pause
  split
  · rfl
  · split <;> rfl

@[simp] lemma fold_pause_remaining_seconds (tm : Timer) (now : ℚ) :
    (fold_pause tm now).remaining_seconds = tm.remaining_seconds := by
  unfold fold_pause
  split
  · rfl
  · split <;> rfl

/-- C1: a `tick` in the `Working` phase decrements `remaining_seconds` by
exactly 1 and fires the tick notification carrying the new value; the tick
that brings it to 0 or below transitions to `Idle` with
`remaining_seconds` forced to 0, increments `completed_pomodoros` by
exactly 1, closes the session and fires the completion notification
exactly once; ticking the resulting `Idle` state changes nothing and
fires nothing. -/
theorem tick_working_spec (s : Sys) (h : s.tm.state = TimerState.WORKING) :
    tick s =
      (if s.tm.remaining_seconds ≤ 1 then
        ({ tm :=
            { s.tm with
                state := TimerState.IDLE
                remaining_seconds := 0
                completed_pomodoros := s.tm.completed_pomodoros + 1
                last_completed_session := some TimerState.WORKING
                last_session_id := s.tm.current_session_id }
           db := s.db.end_session },
         [Event.tick (s.tm.remaining_seconds - 1), Event.session_end true,
          Event.state_change TimerState.WORKING TimerState.IDLE, Event.complete])
      else
        ({ s with tm := { s.tm with remaining_seconds := s.tm.remaining_seconds - 1 } },
         [Event.tick (s.tm.remaining_seconds - 1)]))
    ∧ (tick s).2.count Event.complete = (if s.tm.remaining_seconds ≤ 1 then 1 else 0)
    ∧ (if s.tm.remaining_seconds ≤ 1 then
        tick (tick s).1 = ((tick s).1, ([] : List Event)) else True)
    ∧ (∀ u : Sys, u.tm.state = TimerState.IDLE → tick u = (u, [])) := by
  have hIdle : ∀ u : Sys, u.tm.state = TimerState.IDLE → tick u = (u, []) := by
    intro u hu
    simp [tick, hu]
  have hr'' : (s.tm.remaining_seconds - 1 ≤ 0) ↔ (s.tm.remaining_seconds ≤ 1) := by omega
  refine ⟨?_, ?_, ?_, hIdle⟩ <;>
    by_cases hr : s.tm.remaining_seconds ≤ 1 <;>
    simp [tick, handle_timer_complete, change_state, h, hr, hr'', List.count_cons]

/-- Concrete working state (remaining 2 seconds, session 1 open) used to
witness the tick specification. -/
def tick_demo : Sys :=
  { tm :=
      { Timer.init 25 5 15 4 with
          state := TimerState.WORKING
          remaining_seconds := 2
          total_seconds := 1500
          session_start_seconds := 1500
          current_session_id := some 1 }
    db := { next_id := 2, open_sessions := [1], current_session_id := some 1,
            extend_events := [] } }

/-- Witness for C1: the tick specification applies to the concrete
working state `tick_demo`. -/
theorem tick_working_witness :
    tick_demo.tm.state = TimerState.WORKING
    ∧ (tick tick_demo).2.count Event.complete =
        (if tick_demo.tm.remaining_seconds ≤ 1 then 1 else 0) :=
  ⟨rfl, (tick_working_spec tick_demo rfl).2.1⟩

/-- C4: across every operation, `completed_pomodoros` becomes 0 exactly
under `reset`, under the completing tick of a `LongBreak`, and under
`skip_break` from a `LongBreak`; it increments by exactly 1 under the
completing tick of a `Working` phase; every other operation (including
`stop`, short-break completion and short-break skip) leaves it
unchanged. -/
theorem completed_cycles_spec (s : Sys) :
    ((step s Op.tick).1.tm.completed_pomodoros =
      (if s.tm.state = TimerState.WORKING ∧ s.tm.remaining_seconds ≤ 1 then
        s.tm.completed_pomodoros + 1
      else if s.tm.state = TimerState.LONG_BREAK ∧ s.tm.remaining_seconds ≤ 1 then 0
      else s.tm.completed_pomodoros))
    ∧ ((step s Op.skip_break).1.tm.completed_pomodoros =
        (if s.tm.state = TimerState.LONG_BREAK then 0 else s.tm.completed_pomodoros))
    ∧ (∀ n : ℚ, (step s (Op.reset n)).1.tm.completed_pomodoros = 0)
    ∧ ((step s Op.start_work).1.tm.completed_pomodoros = s.tm.completed_pomodoros)
    ∧ ((step s Op.start_break).1.tm.completed_pomodoros = s.tm.completed_pomodoros)
    ∧ (∀ n : ℚ, (step s (Op.pause n)).1.tm.completed_pomodoros = s.tm.completed_pomodoros)
    ∧ (∀ n : ℚ, (step s (Op.resume n)).1.tm.completed_pomodoros = s.tm.completed_pomodoros)
    ∧ (∀ n : ℚ, (step s (Op.stop n)).1.tm.completed_pomodoros = s.tm.completed_pomodoros)
    ∧ (∀ m : ℚ, (step s (Op.extend m)).1.tm.completed_pomodoros = s.tm.completed_pomodoros)
    ∧ (∀ (m : ℚ) (sid : ℕ),
        (step s (Op.extend_completed m sid)).1.tm.completed_pomodoros =
          s.tm.completed_pomodoros) := by
  have hiff : ∀ z : ℤ, (z - 1 ≤ 0) ↔ (z ≤ 1) := by omega
  refine ⟨?_, ?_, ?_, ?_, ?_, ?_, ?_, ?_, ?_, ?_⟩
  · cases hst : s.tm.state <;>
      by_cases hr : s.tm.remaining_seconds ≤ 1 <;>
      simp [step, tick, handle_timer_complete, change_state, hst, hr, hiff]
  · cases hst : s.tm.state <;>
      simp [step, skip_break, change_state, hst]
  · intro n
    simp [step, reset, change_state]
  · by_cases hs : s.tm.state = TimerState.IDLE <;>
      simp [step, start_work, change_state, Db.start_session, hs]
  · by_cases hl : is_long_break_time
        { s.tm with pause_start_time := none, total_pause_seconds := 0, pause_count := 0 } <;>
      simp [step, start_break, change_state, Db.start_session, hl]
  · intro n
    cases hst : s.tm.state <;> simp [step, pause, change_state, hst]
  · intro n
    cases hp : s.tm.previous_state <;>
      by_cases hst : s.tm.state = TimerState.PAUSED <;>
      simp [step, resume, change_state, hp, hst]
  · intro n
    by_cases hs : s.tm.state = TimerState.PAUSED <;>
      simp [step, stop, change_state, hs]
  · intro m
    cases hst : s.tm.state <;> simp [step, extend, change_state, hst]
  · intro m sid
    by_cases hs : s.tm.state = TimerState.IDLE
    · cases hl : s.tm.last_completed_session with
      | none => simp [step, extend_completed_session, change_state, hs, hl]
      | some p => cases p <;> simp [step, extend_completed_session, change_state, hs, hl]
    · simp [step, extend_completed_session, change_state, hs]

/-- C5: from an active phase, `pause` at wall-clock `n1` followed by
`resume` at wall-clock `n2` restores the pre-pause phase, leaves
`remaining_seconds` unchanged, clears `previous_state` and
`pause_start_time`, and increases `total_pause_seconds` by exactly the
truncated elapsed time `int(n2 - n1)`.  (`n1 ≠ 0` reflects that
`time.time()` is a positive timestamp; Python treats a `0.0` start as
falsy.) -/
theorem pause_resume_spec (s : Sys) (n1 n2 : ℚ)
    (h : s.tm.state = TimerState.WORKING ∨ s.tm.state = TimerState.SHORT_BREAK ∨
      s.tm.state = TimerState.LONG_BREAK)
    (hn : n1 ≠ 0) :
    (resume (pause s n1).1 n2).1.tm.state = s.tm.state
    ∧ (resume (pause s n1).1 n2).1.tm.remaining_seconds = s.tm.remaining_seconds
    ∧ (resume (pause s n1).1 n2).1.tm.previous_state = none
    ∧ (resume (pause s n1).1 n2).1.tm.pause_start_time = none
    ∧ (resume (pause s n1).1 n2).1.tm.total_pause_seconds =
        s.tm.total_pause_seconds + pyInt (n2 - n1) := by
  rcases h with h | h | h <;>
    simp [pause, resume, change_state, fold_pause, h, hn]

/-- Concrete active state used to witness the pause/resume round trip. -/
def pause_demo : Sys :=
  { tm :=
      { Timer.init 25 5 15 4 with
          state := TimerState.WORKING
          remaining_seconds := 900
          total_seconds := 1500
          session_start_seconds := 1500 }
    db := Db.init }

/-- Witness for C5: pause at time 1 and resume at time 5/2 on a concrete
working state adds `int(3/2) = 1` second of accumulated pause time. -/
theorem pause_resume_witness :
    (pause_demo.tm.state = TimerState.WORKING ∨
      pause_demo.tm.state = TimerState.SHORT_BREAK ∨
      pause_demo.tm.state = TimerState.LONG_BREAK)
    ∧ (1 : ℚ) ≠ 0
    ∧ ((resume (pause pause_demo 1).1 (5/2)).1.tm.state = pause_demo.tm.state
      ∧ (resume (pause pause_demo 1).1 (5/2)).1.tm.remaining_seconds =
          pause_demo.tm.remaining_seconds
      ∧ (resume (pause pause_demo 1).1 (5/2)).1.tm.previous_state = none
      ∧ (resume (pause pause_demo 1).1 (5/2)).1.tm.pause_start_time = none
      ∧ (resume (pause pause_demo 1).1 (5/2)).1.tm.total_pause_seconds =
          pause_demo.tm.total_pause_seconds + pyInt ((5/2) - 1)) :=
  ⟨Or.inl rfl, by norm_num,
    pause_resume_spec pause_demo 1 (5/2) (Or.inl rfl) (by norm_num)⟩

/-- C10: `pause` outside the active phases, `resume` outside `Paused` or
without a remembered phase, `extend` outside the active phases, and
`skip_break` outside the break phases are silent no-ops: no exception, no
notification, no recorder callback, and an unchanged state. -/
theorem silent_noop_spec (s : Sys) :
    (∀ n : ℚ,
      ¬(s.tm.state = TimerState.WORKING ∨ s.tm.state = TimerState.SHORT_BREAK ∨
          s.tm.state = TimerState.LONG_BREAK) →
        step s (Op.pause n) = (s, []))
    ∧ (∀ n : ℚ, s.tm.state ≠ TimerState.PAUSED ∨ s.tm.previous_state = none →
        step s (Op.resume n) = (s, []))
    ∧ (∀ m : ℚ,
        ¬(s.tm.state = TimerState.WORKING ∨ s.tm.state = TimerState.SHORT_BREAK ∨
            s.tm.state = TimerState.LONG_BREAK) →
          step s (Op.extend m) = (s, []))
    ∧ (¬(s.tm.state = TimerState.SHORT_BREAK ∨ s.tm.state = TimerState.LONG_BREAK) →
        step s Op.skip_break = (s, [])) := by
  refine ⟨?_, ?_, ?_, ?_⟩
  · intro n h
    simp [step, pause, h]
  · intro n h
    cases hp : s.tm.previous_state with
    | none => simp [step, resume, hp]
    | some p =>
      rcases h with h | h
      · simp [step, resume, hp, h]
      · simp [hp] at h
  · intro m h
    simp [step, extend, h]
  · intro h
    simp [step, skip_break, h]

/-- Witness for C10: on the freshly initialised (idle) system every one of
the four guarded operations is a silent no-op. -/
theorem silent_noop_witness :
    (¬(((Sys.init 25 5 15 4).tm.state = TimerState.WORKING ∨
        (Sys.init 25 5 15 4).tm.state = TimerState.SHORT_BREAK ∨
        (Sys.init 25 5 15 4).tm.state = TimerState.LONG_BREAK)) ∧
      step (Sys.init 25 5 15 4) (Op.pause 7) = (Sys.init 25 5 15 4, []))
    ∧ (((Sys.init 25 5 15 4).tm.state ≠ TimerState.PAUSED ∨
        (Sys.init 25 5 15 4).tm.previous_state = none) ∧
      step (Sys.init 25 5 15 4) (Op.resume 7) = (Sys.init 25 5 15 4, []))
    ∧ step (Sys.init 25 5 15 4) (Op.extend 3) = (Sys.init 25 5 15 4, [])
    ∧ step (Sys.init 25 5 15 4) Op.skip_break = (Sys.init 25 5 15 4, []) :=
  ⟨⟨by decide, (silent_noop_spec (Sys.init 25 5 15 4)).1 7 (by decide)⟩,
   ⟨Or.inl (by decide), (silent_noop_spec (Sys.init 25 5 15 4)).2.1 7 (Or.inl (by decide))⟩,
   (silent_noop_spec (Sys.init 25 5 15 4)).2.2.1 3 (by decide),
   (silent_noop_spec (Sys.init 25 5 15 4)).2.2.2 (by decide)⟩

/-- Invariant actually maintained for `previous_state`: it is present
whenever the phase is `Paused`, and it never holds `Idle` or `Paused`
itself.  (Presence does NOT imply the phase is `Paused`: see the
counterexample through `stop`.) -/
def PrevInv (s : Sys) : Prop :=
  (s.tm.state = TimerState.PAUSED → s.tm.previous_state ≠ none)
  ∧ s.tm.previous_state ≠ some TimerState.IDLE
  ∧ s.tm.previous_state ≠ some TimerState.PAUSED

lemma prevInv_step (s : Sys) (h : PrevInv s) (op : Op) : PrevInv (step s op).1 := by
  obtain ⟨h1, h2, h3⟩ := h
  cases op with
  | start_work =>
    by_cases hs : s.tm.state = TimerState.IDLE <;>
      simp_all [PrevInv, step, start_work, change_state, Db.start_session]
  | start_break =>
    by_cases hl : is_long_break_time
        { s.tm with pause_start_time := none, total_pause_seconds := 0, pause_count := 0 } <;>
      simp_all [PrevInv, step, start_break, change_state, Db.start_session]
  | tick =>
    cases hst : s.tm.state <;>
      simp_all [PrevInv, step, tick, handle_timer_complete, change_state] <;>
      (split <;> simp_all)
  | pause n =>
    cases hst : s.tm.state <;>
      simp_all [PrevInv, step, pause, change_state]
  | resume n =>
    cases hp : s.tm.previous_state with
    | none => simp_all [PrevInv, step, resume]
    | some p =>
      by_cases hst : s.tm.state = TimerState.PAUSED
      · have hpp : p ≠ TimerState.PAUSED := fun e => h3 (by rw [hp, e])
        simp_all [PrevInv, step, resume, change_state]
      · simp_all [PrevInv, step, resume]
  | stop n =>
    by_cases hs : s.tm.state = TimerState.PAUSED <;>
      simp_all [PrevInv, step, stop, change_state]
  | reset n =>
    simp_all [PrevInv, step, reset, change_state]
  | extend m =>
    cases hst : s.tm.state <;>
      simp_all [PrevInv, step, extend, change_state]
  | extend_completed m sid =>
    by_cases hs : s.tm.state = TimerState.IDLE
    · cases hl : s.tm.last_completed_session with
      | none =>
        simp_all [PrevInv, step, extend_completed_session]
      | some p =>
        cases p <;>
          simp_all [PrevInv, step, extend_completed_session, change_state]
    · simp_all [PrevInv, step, extend_completed_session]
  | skip_break =>
    cases hst : s.tm.state <;>
      simp_all [PrevInv, step, skip_break, change_state]

/-- C8 counterexample: after `start_work`, `pause`, `stop` the run is back
in `Idle` yet `previous_state` is still `some Working` — `stop` does not
clear it, so presence of `previous_state` does not coincide with the
`Paused` phase. -/
theorem previous_phase_counterexample :
    (run (Sys.init 25 5 15 4) [Op.start_work, Op.pause 100, Op.stop 110]).tm.state =
      TimerState.IDLE
    ∧ (run (Sys.init 25 5 15 4) [Op.start_work, Op.pause 100, Op.stop 110]).tm.previous_state
        = some TimerState.WORKING
    ∧ ¬((run (Sys.init 25 5 15 4)
          [Op.start_work, Op.pause 100, Op.stop 110]).tm.previous_state ≠ none →
        (run (Sys.init 25 5 15 4) [Op.start_work, Op.pause 100, Op.stop 110]).tm.state =
          TimerState.PAUSED) := by
  norm_num [Sys.init, Timer.init, Db.init, run, step, start_work, change_state,
    Db.start_session, Db.end_session, pyInt, pause, stop, fold_pause, truthyId] <;>
    simp

/-- C8 (amended): `previous_state` is set only by `pause` on entering
`Paused` and cleared only by `resume` on leaving `Paused` or by `reset`;
every other operation (including `stop`) carries it over unchanged.  In
every reachable state `Paused` implies `previous_state` is present, but
the converse direction of the original claim fails (see the
counterexample). -/
theorem previous_phase_spec :
    (∀ s : Sys, PrevInv s → ∀ op : Op, PrevInv (step s op).1)
    ∧ (∀ (w sb lb : ℚ) (p : ℕ), PrevInv (Sys.init w sb lb p))
    ∧ (∀ (s : Sys) (n : ℚ), (step s (Op.pause n)).1.tm.previous_state =
        (if s.tm.state = TimerState.WORKING ∨ s.tm.state = TimerState.SHORT_BREAK ∨
            s.tm.state = TimerState.LONG_BREAK then some s.tm.state
         else s.tm.previous_state))
    ∧ (∀ (s : Sys) (n : ℚ), (step s (Op.resume n)).1.tm.previous_state =
        (if s.tm.state = TimerState.PAUSED ∧ s.tm.previous_state ≠ none then none
         else s.tm.previous_state))
    ∧ (∀ (s : Sys) (n : ℚ), (step s (Op.reset n)).1.tm.previous_state = none)
    ∧ (∀ s : Sys, (step s Op.start_work).1.tm.previous_state = s.tm.previous_state)
    ∧ (∀ s : Sys, (step s Op.start_break).1.tm.previous_state = s.tm.previous_state)
    ∧ (∀ s : Sys, (step s Op.tick).1.tm.previous_state = s.tm.previous_state)
    ∧ (∀ (s : Sys) (n : ℚ), (step s (Op.stop n)).1.tm.previous_state = s.tm.previous_state)
    ∧ (∀ (s : Sys) (m : ℚ), (step s (Op.extend m)).1.tm.previous_state =
        s.tm.previous_state)
    ∧ (∀ (s : Sys) (m : ℚ) (sid : ℕ),
        (step s (Op.extend_completed m sid)).1.tm.previous_state = s.tm.previous_state)
    ∧ (∀ s : Sys, (step s Op.skip_break).1.tm.previous_state = s.tm.previous_state) := by
  refine ⟨prevInv_step, ?_, ?_, ?_, ?_, ?_, ?_, ?_, ?_, ?_, ?_, ?_⟩
  · intro w sb lb p
    exact ⟨by simp [Sys.init, Timer.init], by simp [Sys.init, Timer.init],
      by simp [Sys.init, Timer.init]⟩
  · intro s n
    by_cases h : s.tm.state = TimerState.WORKING ∨ s.tm.state = TimerState.SHORT_BREAK ∨
        s.tm.state = TimerState.LONG_BREAK <;>
      simp [step, pause, change_state, h]
  · intro s n
    cases hp : s.tm.previous_state with
    | none => by_cases hst : s.tm.state = TimerState.PAUSED <;> simp [step, resume, hp, hst]
    | some p =>
      by_cases hst : s.tm.state = TimerState.PAUSED <;>
        simp [step, resume, change_state, hp, hst]
  · intro s n
    simp [step, reset, change_state]
  · intro s
    by_cases hs : s.tm.state = TimerState.IDLE <;>
      simp [step, start_work, change_state, Db.start_session, hs]
  · intro s
    by_cases hl : is_long_break_time
        { s.tm with pause_start_time := none, total_pause_seconds := 0, pause_count := 0 } <;>
      simp [step, start_break, change_state, Db.start_session, hl]
  · intro s
    cases hst : s.tm.state <;>
      by_cases hr : s.tm.remaining_seconds - 1 ≤ 0 <;>
      simp [step, tick, handle_timer_complete, change_state, hst, hr]
  · intro s n
    by_cases hs : s.tm.state = TimerState.PAUSED <;>
      simp [step, stop, change_state, hs]
  · intro s m
    cases hst : s.tm.state <;> simp [step, extend, hst]
  · intro s m sid
    by_cases hs : s.tm.state = TimerState.IDLE
    · cases hl : s.tm.last_completed_session with
      | none => simp [step, extend_completed_session, hs, hl]
      | some p => cases p <;> simp [step, extend_completed_session, change_state, hs, hl]
    · simp [step, extend_completed_session, hs]
  · intro s
    cases hst : s.tm.state <;> simp [step, skip_break, change_state, hst]

/-- Witness for C8 (amended): the invariant holds of the freshly
initialised system and is carried through a `pause` step. -/
theorem previous_phase_witness :
    PrevInv (Sys.init 25 5 15 4) ∧ PrevInv (step (Sys.init 25 5 15 4) (Op.pause 3)).1 :=
  ⟨previous_phase_spec.2.1 25 5 15 4,
   previous_phase_spec.1 (Sys.init 25 5 15 4) (previous_phase_spec.2.1 25 5 15 4)
     (Op.pause 3)⟩

/-- Session-accounting invariant: the recorder has at most one open
session (exactly the one its `current_session_id` names), the timer holds
that same id (non-zero, so Python truthiness sees it), no session is open
while the timer is `Idle`, and row ids are non-zero. -/
def SessionInv (s : Sys) : Prop :=
  (∀ i, s.db.current_session_id = some i →
      s.db.open_sessions = [i] ∧ s.tm.current_session_id = some i ∧ i ≠ 0)
  ∧ (s.db.current_session_id = none → s.db.open_sessions = [])
  ∧ (s.tm.state = TimerState.IDLE → s.db.current_session_id = none)
  ∧ s.tm.previous_state ≠ some TimerState.IDLE
  ∧ s.db.next_id ≠ 0

/-- Guard under which the invariant is preserved: `start_break` is only
invoked while the timer is `Idle` (it performs no close of its own). -/
def op_ok (s : Sys) : Op → Bool
  | Op.start_break => s.tm.state == TimerState.IDLE
  | _ => true

/-- A run all of whose steps satisfy `op_ok` at the state they fire in. -/
def good_run : Sys → List Op → Bool
  | _, [] => true
  | s, op :: ops => op_ok s op && good_run (step s op).1 ops

set_option maxHeartbeats 1600000 in
lemma sessionInv_step (s : Sys) (op : Op) (h : SessionInv s)
    (hok : op_ok s op = true) : SessionInv (step s op).1 := by
  obtain ⟨hsome, hnone, hidle, hprev, hnid⟩ := h
  have hinv : SessionInv s := ⟨hsome, hnone, hidle, hprev, hnid⟩
  cases op with
  | start_work =>
    by_cases hs : s.tm.state = TimerState.IDLE
    · have ho := hnone (hidle hs)
      simp_all [SessionInv, step, start_work, change_state, Db.start_session]
    · simpa [step, start_work, hs] using hinv
  | start_break =>
    have hs : s.tm.state = TimerState.IDLE := by simpa [op_ok] using hok
    have ho := hnone (hidle hs)
    by_cases hl : is_long_break_time
        { s.tm with pause_start_time := none, total_pause_seconds := 0, pause_count := 0 } <;>
      simp_all [SessionInv, step, start_break, change_state, Db.start_session]
  | tick =>
    cases hst : s.tm.state with
    | IDLE => simpa [step, tick, hst] using hinv
    | PAUSED => simpa [step, tick, hst] using hinv
    | WORKING | SHORT_BREAK | LONG_BREAK =>
      rcases hc : s.db.current_session_id with _ | i
      · have ho := hnone hc
        simp_all [SessionInv, step, tick, handle_timer_complete, change_state,
          Db.end_session] <;> (split <;> simp_all)
      · obtain ⟨ho, htm, hi0⟩ := hsome i hc
        simp_all [SessionInv, step, tick, handle_timer_complete, change_state,
          Db.end_session] <;> (split <;> simp_all)
  | pause n =>
    cases hst : s.tm.state <;> simp_all [SessionInv, step, pause, change_state]
  | resume n =>
    cases hp : s.tm.previous_state with
    | none => simpa [step, resume, hp] using hinv
    | some p =>
      by_cases hst : s.tm.state = TimerState.PAUSED
      · have hpi : p ≠ TimerState.IDLE := fun e => hprev (by rw [hp, e])
        simp_all [SessionInv, step, resume, change_state]
      · simpa [step, resume, hp, hst] using hinv
  | stop n =>
    rcases hc : s.db.current_session_id with _ | i
    · have ho := hnone hc
      simp_all [SessionInv, step, stop, change_state, Db.end_session, truthyId,
        apply_ite] <;> (split <;> simp_all)
    · obtain ⟨ho, htm, hi0⟩ := hsome i hc
      simp_all [SessionInv, step, stop, change_state, Db.end_session, truthyId,
        apply_ite] <;> (split <;> simp_all)
  | reset n =>
    rcases hc : s.db.current_session_id with _ | i
    · have ho := hnone hc
      simp_all [SessionInv, step, reset, change_state, Db.end_session, truthyId,
        apply_ite] <;> (split <;> simp_all)
    · obtain ⟨ho, htm, hi0⟩ := hsome i hc
      simp_all [SessionInv, step, reset, change_state, Db.end_session, truthyId,
        apply_ite] <;> (split <;> simp_all)
  | extend m =>
    cases hst : s.tm.state with
    | IDLE => simpa [step, extend, hst] using hinv
    | PAUSED => simpa [step, extend, hst] using hinv
    | WORKING | SHORT_BREAK | LONG_BREAK =>
      rcases hc : s.db.current_session_id with _ | i <;>
        simp_all [SessionInv, step, extend, Db.add_extend]
  | extend_completed m sid =>
    by_cases hs : s.tm.state = TimerState.IDLE
    · have hc := hidle hs
      have ho := hnone hc
      cases hl : s.tm.last_completed_session with
      | none => simpa [step, extend_completed_session, hs, hl] using hinv
      | some p =>
        cases p <;>
          simp_all [SessionInv, step, extend_completed_session, change_state]
    · simpa [step, extend_completed_session, hs] using hinv
  | skip_break =>
    cases hst : s.tm.state with
    | IDLE => simpa [step, skip_break, hst] using hinv
    | WORKING => simpa [step, skip_break, hst] using hinv
    | PAUSED => simpa [step, skip_break, hst] using hinv
    | SHORT_BREAK | LONG_BREAK =>
      rcases hc : s.db.current_session_id with _ | i
      · have ho := hnone hc
        simp_all [SessionInv, step, skip_break, change_state, Db.end_session, truthyId,
          apply_ite] <;> (split <;> simp_all)
      · obtain ⟨ho, htm, hi0⟩ := hsome i hc
        simp_all [SessionInv, step, skip_break, change_state, Db.end_session, truthyId,
          apply_ite] <;> (split <;> simp_all)

lemma sessionInv_run (s : Sys) (ops : List Op) (h : SessionInv s)
    (hg : good_run s ops = true) : SessionInv (run s ops) := by
  induction ops generalizing s with
  | nil => simpa [run] using h
  | cons op ops ih =>
    rw [good_run, Bool.and_eq_true] at hg
    rw [run]
    exact ih (step s op).1 (sessionInv_step s op h hg.1) hg.2

/-- C9 counterexample: `start_work` then `start_break` (invoked while
`Working`, which the source does not forbid) leaves sessions 1 and 2 both
open — `start_break` opens a new record without closing the current one,
so more than one session identifier is open at once. -/
theorem open_sessions_counterexample :
    (run (Sys.init 25 5 15 4) [Op.start_work, Op.start_break]).db.open_sessions = [2, 1]
    ∧ 1 < (run (Sys.init 25 5 15 4)
        [Op.start_work, Op.start_break]).db.open_sessions.length := by
  norm_num [Sys.init, Timer.init, Db.init, run, step, start_work, start_break,
    change_state, Db.start_session, pyInt, is_long_break_time]

/-- C9 (amended): provided `start_break` is only invoked while the timer
is `Idle`, at most one session identifier is open at any time along any
run: the session invariant holds initially, is preserved by every guarded
step, and bounds the recorder's open-session count by one.  Without that
guard the property fails (see the counterexample), because `start_break`
does not close an already-open session. -/
theorem single_open_session_spec :
    (∀ (s : Sys) (op : Op), SessionInv s → op_ok s op = true → SessionInv (step s op).1)
    ∧ (∀ (s : Sys) (ops : List Op), SessionInv s → good_run s ops = true →
        SessionInv (run s ops))
    ∧ (∀ s : Sys, SessionInv s → s.db.open_sessions.length ≤ 1)
    ∧ (∀ (w sb lb : ℚ) (p : ℕ), SessionInv (Sys.init w sb lb p)) := by
  refine ⟨fun s op h hok => sessionInv_step s op h hok,
          fun s ops h hg => sessionInv_run s ops h hg, ?_, ?_⟩
  · intro s h
    rcases hc : s.db.current_session_id with _ | i
    · simp [h.2.1 hc]
    · simp [(h.1 i hc).1]
  · intro w sb lb p
    refine ⟨?_, ?_, ?_, ?_, ?_⟩ <;> simp [Sys.init, Timer.init, Db.init]

/-- Witness for C9 (amended): the invariant holds of the initial system,
the two-step run `start_work; tick` is guarded, and after it at most one
session is open. -/
theorem single_open_session_witness :
    SessionInv (Sys.init 25 5 15 4)
    ∧ good_run (Sys.init 25 5 15 4) [Op.start_work, Op.tick] = true
    ∧ SessionInv (run (Sys.init 25 5 15 4) [Op.start_work, Op.tick])
    ∧ (run (Sys.init 25 5 15 4) [Op.start_work, Op.tick]).db.open_sessions.length ≤ 1 :=
  ⟨single_open_session_spec.2.2.2 25 5 15 4, by decide,
   single_open_session_spec.2.1 (Sys.init 25 5 15 4) [Op.start_work, Op.tick]
     (single_open_session_spec.2.2.2 25 5 15 4) (by decide),
   single_open_session_spec.2.2.1 _
     (single_open_session_spec.2.1 (Sys.init 25 5 15 4) [Op.start_work, Op.tick]
       (single_open_session_spec.2.2.2 25 5 15 4) (by decide))⟩

end Pomodoro
